import Mathlib

/-!
# pumba listener: long-poll receive with last-digest deduplication and counter fan-out

Shallow embedding of `src/listener/sqs_longpolling_receive_message.go`:

* `share_message` (lines 113-153) and `SQS_longpolling_receive_message` (lines 34-110) are
  translated statement by statement;
* the SQS client is an explicit interface over a world state, every call is recorded in an
  event trace together with its answer;
* `strconv.Atoi` / `strconv.Itoa` (Go standard library, 64-bit `int`) are embedded from the
  library's code, with explicit wrap-around where the Go code computes on machine integers.
-/

namespace Pumba

/-! ## Go `strconv` -/

/-- The two error kinds of `strconv.NumError`. -/
inductive NumError where
  | ErrSyntax
  | ErrRange
  deriving DecidableEq, Repr

deriving instance DecidableEq for Except

/-- Conversion to Go's 64-bit `int`: two's complement wrap-around. -/
def wrapInt (x : Int) : Int := (x + 2 ^ 63) % 2 ^ 64 - 2 ^ 63

/-- Go `len(s)`: the number of bytes of the UTF-8 encoding. -/
def len (s : List Char) : Nat := (String.mk s).utf8ByteSize

/-- The byte test `'0' <= c && c <= '9'` (a character outside ASCII consists of bytes
`>= 0x80`, none of which passes). -/
def isDecimal (c : Char) : Bool := decide (48 ≤ c.toNat) && decide (c.toNat ≤ 57)

/-- The loop of `strconv.ParseUint(s, 10, 64)`: `cutoff = maxUint64/10 + 1`,
`maxVal = 1<<64 - 1`, arithmetic on `uint64`. -/
def ParseUint.loop : List Char → Nat → Except NumError Nat
  | [], n => .ok n
  | c :: cs, n =>
    if isDecimal c then
      let d := c.toNat - 48
      if n ≥ (2 ^ 64 - 1) / 10 + 1 then .error .ErrRange
      else
        let n10 := (n * 10) % 2 ^ 64
        let n1 := (n10 + d) % 2 ^ 64
        if n1 < n10 ∨ n1 > 2 ^ 64 - 1 then .error .ErrRange
        else ParseUint.loop cs n1
    else .error .ErrSyntax

/-- Go `strconv.ParseUint(s, 10, 64)`. -/
def ParseUint (s : List Char) : Except NumError Nat :=
  if s = [] then .error .ErrSyntax else ParseUint.loop s 0

/-- Go `strconv.ParseInt(s, 10, 0)` with `IntSize = 64`. -/
def ParseInt (s : List Char) : Except NumError Int :=
  match s with
  | [] => .error .ErrSyntax
  | c :: cs =>
    let neg := decide (c = '-')
    let s1 := if c = '+' ∨ c = '-' then cs else c :: cs
    match ParseUint s1 with
    | .error .ErrSyntax => .error .ErrSyntax
    | r =>
      -- on a range error `ParseUint` has returned `maxVal`
      let un : Nat := match r with
        | .ok u => u
        | .error _ => 2 ^ 64 - 1
      if !neg ∧ un ≥ 2 ^ 63 then .error .ErrRange
      else if neg ∧ un > 2 ^ 63 then .error .ErrRange
      else if neg then .ok (wrapInt (-(wrapInt un))) else .ok (wrapInt un)

/-- The fast-path loop of `strconv.Atoi`: `n = n*10 + int(ch)` on `int`. -/
def Atoi.fast : List Char → Int → Except NumError Int
  | [], n => .ok n
  | c :: cs, n =>
    if isDecimal c then Atoi.fast cs (wrapInt (n * 10 + ((c.toNat - 48 : Nat) : Int)))
    else .error .ErrSyntax

/-- Go `strconv.Atoi` on a 64-bit platform, over the characters of the string. -/
def AtoiChars (s : List Char) : Except NumError Int :=
  if 0 < len s ∧ len s < 19 then
    match s with
    | [] => .error .ErrSyntax
    | c :: cs =>
      let s1 := if c = '-' ∨ c = '+' then cs else c :: cs
      if s1 = [] then .error .ErrSyntax
      else
        match Atoi.fast s1 0 with
        | .error e => .error e
        | .ok n => if c = '-' then .ok (wrapInt (-n)) else .ok n
  else ParseInt s

/-- Go `strconv.Atoi`. -/
def Atoi (s : String) : Except NumError Int := AtoiChars s.data

/-- The digit loop of `strconv.formatBits` in base 10: digits are written from the right
into a 65-byte buffer while `u >= 10`, then the leading digit. The first argument bounds
the number of iterations by the buffer size. -/
def formatBits : Nat → Nat → List Char → List Char
  | 0, u, a => Char.ofNat (48 + u % 10) :: a
  | fuel + 1, u, a =>
    if u ≥ 10 then formatBits fuel (u / 10) (Char.ofNat (48 + u % 10) :: a)
    else Char.ofNat (48 + u) :: a

/-- Go `strconv.FormatInt(i, 10)`: the decimal digits, after `-` for a negative number. -/
def FormatInt (i : Int) : List Char :=
  if i < 0 then '-' :: formatBits 64 (-i).toNat [] else formatBits 64 i.toNat []

/-- Go `strconv.Itoa`. -/
def Itoa (i : Int) : String := String.mk (FormatInt i)

/-- Go `strconv.FormatUint(n, 10)`: the decimal string of a natural number. -/
def decimal (n : Nat) : String := String.mk (formatBits 64 n [])

/-! ## SQS data and client -/

/-- The SDK type `sqs.MessageAttributeValue`. `StringValue` and `BinaryValue` are pointers in
Go: SQS fills `StringValue` for the `String` and `Number` data types and leaves it nil for
`Binary`. -/
structure MessageAttributeValue where
  BinaryValue : Option (List Nat)
  DataType : Option String
  StringValue : Option String
  deriving DecidableEq, Repr

/-- Go `map[string]*sqs.MessageAttributeValue`, as an association list read by first match. -/
abbrev MessageAttributes := List (String × MessageAttributeValue)

/-- The fields of `sqs.Message` that the listener reads. -/
structure Message where
  Body : String
  MD5OfBody : String
  MessageAttributes : MessageAttributes
  ReceiptHandle : String
  deriving DecidableEq, Repr

/-- An error returned by an SQS call. -/
inductive AwsErr where
  | QueueDoesNotExist
  | Other
  deriving DecidableEq, Repr

/-- One call of the listener on the outside world, with the answer it got. -/
inductive Event where
  | GetQueueUrl (name : String) (result : Except AwsErr String)
  | ReceiveMessage (queueUrl : String) (waitTimeSeconds : Int)
      (result : Except AwsErr (List Message))
  | DeleteMessage (queueUrl : String) (receiptHandle : String) (result : Except AwsErr Unit)
  | SendMessage (queueUrl : String) (body : String) (attributes : MessageAttributes)
      (result : Except AwsErr Unit)
  | Sleep (minutes : Nat)
  deriving DecidableEq, Repr

/-- The four operations of the SQS client `svc` that the listener calls, over a world `σ`. -/
structure Client (σ : Type) where
  GetQueueUrl : String → σ → Except AwsErr String × σ
  ReceiveMessage : String → Int → σ → Except AwsErr (List Message) × σ
  DeleteMessage : String → String → σ → Except AwsErr Unit × σ
  SendMessage : String → String → MessageAttributes → σ → Except AwsErr Unit × σ

/-- Read `attrs[key]`. -/
def getAttr (attrs : MessageAttributes) (key : String) : Option MessageAttributeValue :=
  attrs.lookup key

/-- The assignment `*attrs[key].StringValue = v` through the pointer stored in the map. -/
def setStringValue : MessageAttributes → String → String → MessageAttributes
  | [], _, _ => []
  | (k, a) :: rest, key, v =>
    if key = k then (k, { a with StringValue := some v }) :: rest
    else (k, a) :: setStringValue rest key v

/-! ## `share_message` -/

/-- What `share_message` leaves behind: whether it panicked (nil dereference), the message
after the in-place update, the calls it made and the world. -/
structure ShareResult (σ : Type) where
  panicked : Bool
  message : Message
  events : List Event
  world : σ

/-- Lines 113-153. -/
def share_message {σ : Type} (svc : Client σ) (queueUrl : String) (message : Message)
    (w : σ) : ShareResult σ :=
  match getAttr message.MessageAttributes "Nodes" with
  | none => ⟨false, message, [], w⟩
  | some a =>
    match a.StringValue with
    | none => ⟨true, message, [], w⟩
    | some s =>
      match Atoi s with
      | .error _ => ⟨false, message, [], w⟩
      | .ok nodesCount =>
        let nodesCount := wrapInt (nodesCount - 1)
        if nodesCount = 0 then ⟨false, message, [], w⟩
        else
          let attrs := setStringValue message.MessageAttributes "Nodes" (Itoa nodesCount)
          let message := { message with MessageAttributes := attrs }
          let r := svc.SendMessage queueUrl message.Body message.MessageAttributes w
          ⟨false, message,
            [.SendMessage queueUrl message.Body message.MessageAttributes r.1], r.2⟩

/-! ## `SQS_longpolling_receive_message` -/

/-- How a call ends: it returns a string, the process exits (`exitErrorf`), or it panics. -/
inductive Outcome where
  | returned (body : String)
  | exited (code : Nat)
  | panicked
  deriving DecidableEq, Repr

/-- The result of one call: outcome, the value of `*previousBodyMD5` afterwards, the calls
made in order, and the world. -/
structure PollResult (σ : Type) where
  outcome : Outcome
  previousBodyMD5 : String
  events : List Event
  world : σ

/-- Lines 34-110, from the `GetQueueUrl` call on. -/
def SQS_longpolling_receive_message {σ : Type} (svc : Client σ) (name : String)
    (timeout : Int) (previousBodyMD5 : String) (w : σ) : PollResult σ :=
  let u := svc.GetQueueUrl name w
  match u.1 with
  | .error _ => ⟨.exited 1, previousBodyMD5, [.GetQueueUrl name u.1], u.2⟩
  | .ok queueUrl =>
    let r := svc.ReceiveMessage queueUrl timeout u.2
    let ev := [Event.GetQueueUrl name u.1, Event.ReceiveMessage queueUrl timeout r.1]
    match r.1 with
    | .error _ => ⟨.exited 1, previousBodyMD5, ev, r.2⟩
    | .ok [] => ⟨.returned "", previousBodyMD5, ev, r.2⟩
    | .ok (m :: _) =>
      if m.MD5OfBody = previousBodyMD5 then
        ⟨.returned "", previousBodyMD5, ev ++ [.Sleep 1], r.2⟩
      else
        let d := svc.DeleteMessage queueUrl m.ReceiptHandle r.2
        let ev := ev ++ [Event.DeleteMessage queueUrl m.ReceiptHandle d.1]
        match d.1 with
        | .error _ => ⟨.exited 1, previousBodyMD5, ev, d.2⟩
        | .ok _ =>
          let sh := share_message svc queueUrl m d.2
          if sh.panicked then ⟨.panicked, m.MD5OfBody, ev ++ sh.events, sh.world⟩
          else ⟨.returned sh.message.Body, m.MD5OfBody, ev ++ sh.events, sh.world⟩

/-! ## Callers: one node polling repeatedly, several nodes polling in turn -/

/-- One node calling the function for each `(name, timeout)` of the list, with the same
`previousBodyMD5` variable; the process ends with the first call that does not return. -/
def pollLoop {σ : Type} (svc : Client σ) :
    List (String × Int) → String → σ → List (PollResult σ)
  | [], _, _ => []
  | (name, timeout) :: rest, prev, w =>
    let r := SQS_longpolling_receive_message svc name timeout prev w
    match r.outcome with
    | .returned _ => r :: pollLoop svc rest r.previousBodyMD5 r.world
    | _ => [r]

/-- Several nodes, each with its own `previousBodyMD5`, calling the function once, in turn. -/
def pollEach {σ : Type} (svc : Client σ) (name : String) (timeout : Int) :
    List String → σ → List (PollResult σ)
  | [], _ => []
  | prev :: rest, w =>
    let r := SQS_longpolling_receive_message svc name timeout prev w
    r :: pollEach svc name timeout rest r.world

/-! ## A queue that answers every call -/

/-- The queue: the messages it holds, oldest first, and the number of messages sent to it. -/
structure Queue where
  messages : List Message
  sent : Nat
  deriving DecidableEq, Repr

/-- A client whose calls all succeed: a receive shows the oldest message and leaves it in
the queue, a delete removes the message with that receipt handle, a send appends a message
whose `MD5OfBody` is the digest `md5` of its body. -/
def queueClient (md5 : String → String) : Client Queue where
  GetQueueUrl := fun name q => (.ok name, q)
  ReceiveMessage := fun _ _ q => (.ok (q.messages.take 1), q)
  DeleteMessage := fun _ h q =>
    (.ok (), { q with messages := q.messages.filter (fun m => decide (m.ReceiptHandle ≠ h)) })
  SendMessage := fun _ body attrs q =>
    (.ok (), { messages := q.messages ++
                 [{ Body := body, MD5OfBody := md5 body, MessageAttributes := attrs,
                    ReceiptHandle := String.mk (List.replicate (q.sent + 1) 's') }],
               sent := q.sent + 1 })

/-- A client that replays scripted answers: the world is the list of answers still to give
to `ReceiveMessage`, `DeleteMessage` and `SendMessage`. -/
structure Script where
  receives : List (Except AwsErr (List Message))
  deletes : List (Except AwsErr Unit)
  sends : List (Except AwsErr Unit)

/-- The scripted client; a call beyond the script gets an empty receive or a success. -/
def scriptClient : Client Script where
  GetQueueUrl := fun name w => (.ok name, w)
  ReceiveMessage := fun _ _ w => (w.receives.headD (.ok []), { w with receives := w.receives.tail })
  DeleteMessage := fun _ _ w => (w.deletes.headD (.ok ()), { w with deletes := w.deletes.tail })
  SendMessage := fun _ _ _ w => (w.sends.headD (.ok ()), { w with sends := w.sends.tail })

/-! ## Reading a call's trace -/

/-- Whether the trace has a successful `DeleteMessage`. -/
def deletedOk : List Event → Bool
  | [] => false
  | .DeleteMessage _ _ (.ok _) :: _ => true
  | _ :: rest => deletedOk rest

/-- The value of the `"Nodes"` attribute of every message sent in the trace, in order. -/
def sentNodes : List Event → List (Option String)
  | [] => []
  | .SendMessage _ _ attrs _ :: rest =>
    ((getAttr attrs "Nodes").bind (fun a => a.StringValue)) :: sentNodes rest
  | _ :: rest => sentNodes rest

/-- The three operations on the queue. -/
inductive Operation where
  | receive
  | delete
  | send
  deriving DecidableEq, Repr

/-- The operations on the queue that a trace holds, in order; resolving the queue URL and
sleeping are not operations on the queue. -/
def operations : List Event → List Operation
  | [] => []
  | .ReceiveMessage _ _ _ :: rest => .receive :: operations rest
  | .DeleteMessage _ _ _ :: rest => .delete :: operations rest
  | .SendMessage _ _ _ _ :: rest => .send :: operations rest
  | _ :: rest => operations rest

/-! ## Sample data -/

/-- The body `{"Command":"pause"}`. -/
def pauseBody : String := "\x7b\"Command\":\"pause\"\x7d"

/-- A `Number` attribute with the given string value. -/
def numberAttr (v : String) : MessageAttributeValue :=
  { BinaryValue := none, DataType := some "Number", StringValue := some v }

/-- A `Binary` attribute: SQS fills `BinaryValue` and leaves `StringValue` nil. -/
def binaryAttr (v : List Nat) : MessageAttributeValue :=
  { BinaryValue := some v, DataType := some "Binary", StringValue := none }

/-- A stand-in for MD5 in examples: some function of the body alone. -/
def sampleDigest (body : String) : String := "md5:" ++ body

/-- A queued message as SQS holds it: the digest is computed from the body. -/
def queued (md5 : String → String) (body : String) (attrs : MessageAttributes)
    (handle : String) : Message :=
  { Body := body, MD5OfBody := md5 body, MessageAttributes := attrs, ReceiptHandle := handle }

/-- A queued message with body `{"Command":"pause"}` and attributes `{"Nodes": v}`. -/
def pauseMessage (v : String) : Message :=
  queued sampleDigest pauseBody [("Nodes", numberAttr v)] "h0"

/-- A queue that holds one `pauseMessage`. -/
def pauseQueue (v : String) : Queue := { messages := [pauseMessage v], sent := 0 }

/-- What the end-to-end statements observe of a call: the outcome, whether it deleted, the
`"Nodes"` values it sent, and body, digest and attributes of the messages left in the
queue. -/
structure Observation where
  outcome : Outcome
  deleted : Bool
  sent : List (Option String)
  left : List (String × String × MessageAttributes)
  deriving DecidableEq, Repr

/-- The observation of a call against the queue. -/
def observe (r : PollResult Queue) : Observation :=
  { outcome := r.outcome, deleted := deletedOk r.events, sent := sentNodes r.events,
    left := r.world.messages.map (fun m => (m.Body, m.MD5OfBody, m.MessageAttributes)) }

/-! ## Facts about the `strconv` embedding -/

theorem Atoi_samples :
    Atoi "3" = .ok 3 ∧ Atoi "-17" = .ok (-17) ∧ Atoi "+5" = .ok 5 ∧
    Atoi "0012" = .ok 12 ∧
    Atoi "9223372036854775807" = .ok 9223372036854775807 ∧
    Atoi "-9223372036854775808" = .ok (-9223372036854775808) := by decide

theorem Itoa_samples :
    Itoa 2 = "2" ∧ Itoa 0 = "0" ∧ Itoa (-1) = "-1" ∧ Itoa 120 = "120" ∧
    Itoa 9223372036854775807 = "9223372036854775807" ∧
    Itoa (-9223372036854775808) = "-9223372036854775808" := by decide

theorem Atoi_malformed_samples :
    Atoi "" = .error .ErrSyntax ∧ Atoi "two" = .error .ErrSyntax ∧
    Atoi "1 2" = .error .ErrSyntax ∧ Atoi " 3" = .error .ErrSyntax ∧
    Atoi "1.5" = .error .ErrSyntax ∧ Atoi "-" = .error .ErrSyntax ∧
    Atoi "1_000" = .error .ErrSyntax ∧ Atoi "0x10" = .error .ErrSyntax ∧
    Atoi "9223372036854775808" = .error .ErrRange ∧
    Atoi "-9223372036854775809" = .error .ErrRange ∧
    Atoi "99999999999999999999999999" = .error .ErrRange := by decide

theorem wrapInt_of_range (x : Int) (h1 : -2 ^ 63 ≤ x) (h2 : x < 2 ^ 63) : wrapInt x = x := by
  unfold wrapInt
  omega

theorem wrapInt_range (x : Int) : -2 ^ 63 ≤ wrapInt x ∧ wrapInt x < 2 ^ 63 := by
  unfold wrapInt
  omega

theorem digit_char (d : Nat) (h : d < 10) :
    isDecimal (Char.ofNat (48 + d)) = true ∧ (Char.ofNat (48 + d)).toNat - 48 = d := by
  interval_cases d <;> decide

theorem isDecimal_not_sign (c : Char) (h : isDecimal c = true) : c ≠ '-' ∧ c ≠ '+' := by
  constructor <;> (intro hc; subst hc; revert h; decide)

theorem formatBits_head (fuel u : Nat) (a : List Char) :
    ∃ c rest, formatBits fuel u a = c :: rest ∧ isDecimal c = true := by
  induction fuel generalizing u a with
  | zero => exact ⟨_, _, rfl, (digit_char _ (Nat.mod_lt _ (by norm_num))).1⟩
  | succ fuel ih =>
    unfold formatBits
    split
    · exact ih _ _
    · exact ⟨_, _, rfl, (digit_char _ (by omega)).1⟩

theorem fast_formatBits (fuel u : Nat) (a : List Char) (hf : u < 10 ^ (fuel + 1))
    (hu : u < 2 ^ 63) : Atoi.fast (formatBits fuel u a) 0 = Atoi.fast a u := by
  induction fuel generalizing u a with
  | zero =>
    have h10 : u < 10 := by simpa using hf
    have hd := digit_char u h10
    simp [formatBits, Atoi.fast, Nat.mod_eq_of_lt h10, hd.1, hd.2]
    rw [wrapInt_of_range] <;> omega
  | succ fuel ih =>
    unfold formatBits
    split
    · rename_i h
      have hd := digit_char (u % 10) (Nat.mod_lt _ (by norm_num))
      rw [ih (u / 10) _ (by rw [Nat.div_lt_iff_lt_mul (by norm_num)]; rw [pow_succ] at hf; exact hf) (by omega)]
      simp [Atoi.fast, hd.1, hd.2]
      rw [wrapInt_of_range] <;> first | omega | congr 1; omega
    · rename_i h
      have hd := digit_char u (by omega)
      simp [Atoi.fast, hd.1, hd.2]
      rw [wrapInt_of_range] <;> omega

theorem loop_formatBits (fuel u : Nat) (a : List Char) (hf : u < 10 ^ (fuel + 1))
    (hu : u < 2 ^ 64) : ParseUint.loop (formatBits fuel u a) 0 = ParseUint.loop a u := by
  induction fuel generalizing u a with
  | zero =>
    have h10 : u < 10 := by simpa using hf
    have hd := digit_char u h10
    have e0 : u % 18446744073709551616 = u := by omega
    simp [formatBits, ParseUint.loop, Nat.mod_eq_of_lt h10, hd.1, hd.2, e0]
    intro h1; omega
  | succ fuel ih =>
    unfold formatBits
    split
    · rename_i h
      have hd := digit_char (u % 10) (Nat.mod_lt _ (by norm_num))
      rw [ih (u / 10) _ (by rw [Nat.div_lt_iff_lt_mul (by norm_num)]; rw [pow_succ] at hf; exact hf) (by omega)]
      have e1 : u / 10 * 10 % 18446744073709551616 = u / 10 * 10 := by omega
      have e2 : (u / 10 * 10 + u % 10) % 18446744073709551616 = u := by omega
      have e3 : ¬ (1844674407370955162 ≤ u / 10) := by omega
      simp [ParseUint.loop, hd.1, hd.2, e1, e2, e3]
      intro h1; omega
    · rename_i h
      have hd := digit_char u (by omega)
      have e0 : u % 18446744073709551616 = u := by omega
      simp [ParseUint.loop, hd.1, hd.2, e0]
      intro h1; omega

theorem Itoa_natCast (n : Nat) : Itoa (n : Int) = decimal n := by
  have h0 : ¬ ((n : Int) < 0) := by omega
  simp [Itoa, FormatInt, decimal, h0]

theorem Atoi_decimal (n : Nat) (h : n < 2 ^ 63) : Atoi (decimal n) = .ok (n : Int) := by
  have hf : n < 10 ^ (64 + 1) := lt_trans h (by norm_num)
  obtain ⟨c, rest, hc, hdec⟩ := formatBits_head 64 n []
  have hsign := isDecimal_not_sign c hdec
  have h1 := fast_formatBits 64 n [] hf h
  have h2 := loop_formatBits 64 n [] hf (by omega)
  rw [hc] at h1 h2
  simp only [Atoi, decimal, AtoiChars, hc]
  split
  · simp [hsign.1, hsign.2, h1, Atoi.fast]
  · simp [ParseInt, ParseUint, hsign.1, hsign.2, h2, ParseUint.loop]
    rw [if_neg (by omega), wrapInt_of_range _ (by omega) (by omega)]

theorem fast_range (cs : List Char) (n k : Int) (hn : -2 ^ 63 ≤ n ∧ n < 2 ^ 63)
    (h : Atoi.fast cs n = .ok k) : -2 ^ 63 ≤ k ∧ k < 2 ^ 63 := by
  induction cs generalizing n with
  | nil => simp [Atoi.fast] at h; subst h; exact hn
  | cons c cs ih =>
    unfold Atoi.fast at h
    split at h
    · exact ih _ (wrapInt_range _) h
    · simp at h

theorem Atoi_range (s : String) (k : Int) (h : Atoi s = .ok k) :
    -2 ^ 63 ≤ k ∧ k < 2 ^ 63 := by
  unfold Atoi AtoiChars at h
  split at h
  · cases hs : s.data with
    | nil => simp [hs] at h
    | cons c cs =>
      simp only [hs] at h
      generalize (if c = '-' ∨ c = '+' then cs else c :: cs) = s1 at h
      by_cases he : s1 = []
      · simp [he] at h
      · cases hfast : Atoi.fast s1 0 with
        | error e => simp [he, hfast] at h
        | ok n =>
          have hr := fast_range _ 0 n (by norm_num) hfast
          by_cases hc : c = '-'
          · simp [he, hfast, hc] at h; subst h; exact wrapInt_range _
          · simp [he, hfast, hc] at h; subst h; exact hr
  · unfold ParseInt at h
    cases hs : s.data with
    | nil => simp [hs] at h
    | cons c cs =>
      simp only [hs] at h
      generalize (if c = '+' ∨ c = '-' then cs else c :: cs) = s1 at h
      cases hp : ParseUint s1 with
      | error e =>
        cases e <;> simp [hp] at h
        split_ifs at h
      | ok u =>
        simp only [hp] at h
        split_ifs at h <;> (simp at h; subst h; exact wrapInt_range _)

/-! ## Facts about `share_message` -/

theorem getAttr_setStringValue_same (attrs : MessageAttributes) (key v : String) :
    getAttr (setStringValue attrs key v) key =
      (getAttr attrs key).map (fun a => { a with StringValue := some v }) := by
  induction attrs with
  | nil => simp [setStringValue, getAttr]
  | cons e rest ih =>
    obtain ⟨k, a⟩ := e
    unfold setStringValue
    by_cases h : key = k
    · simp [h, getAttr, List.lookup]
    · have hb : (key == k) = false := by simpa using h
      simp only [getAttr] at ih
      simp [h, getAttr, List.lookup, hb, ih]

theorem getAttr_setStringValue_other (attrs : MessageAttributes) (key v key2 : String)
    (hne : key2 ≠ key) :
    getAttr (setStringValue attrs key v) key2 = getAttr attrs key2 := by
  induction attrs with
  | nil => simp [setStringValue, getAttr]
  | cons e rest ih =>
    obtain ⟨k, a⟩ := e
    unfold setStringValue
    simp only [getAttr] at ih
    by_cases h : key = k
    · have hb : (key2 == k) = false := by simpa [← h] using hne
      simp [h, getAttr, List.lookup, hb]
    · by_cases h2 : key2 = k
      · simp [h, h2, getAttr, List.lookup]
      · have hb : (key2 == k) = false := by simpa using h2
        simp [h, getAttr, List.lookup, hb, ih]

theorem keys_setStringValue (attrs : MessageAttributes) (key v : String) :
    (setStringValue attrs key v).map Prod.fst = attrs.map Prod.fst := by
  induction attrs with
  | nil => simp [setStringValue]
  | cons e rest ih =>
    obtain ⟨k, a⟩ := e
    unfold setStringValue
    by_cases h : key = k <;> simp [h, ih]

theorem share_message_body {σ : Type} (svc : Client σ) (queueUrl : String) (M : Message)
    (w : σ) : (share_message svc queueUrl M w).message.Body = M.Body := by
  unfold share_message
  cases hN : getAttr M.MessageAttributes "Nodes" with
  | none => rfl
  | some a =>
    cases hs : a.StringValue with
    | none => simp [hs]
    | some s =>
      cases hk : Atoi s with
      | error e => simp [hs, hk]
      | ok k =>
        simp only [hs, hk]
        split <;> rfl

theorem share_message_panicked {σ : Type} (svc : Client σ) (queueUrl : String) (M : Message)
    (w : σ) (h : (share_message svc queueUrl M w).panicked = true) :
    ∃ a, getAttr M.MessageAttributes "Nodes" = some a ∧ a.StringValue = none := by
  unfold share_message at h
  cases hN : getAttr M.MessageAttributes "Nodes" with
  | none => simp [hN] at h
  | some a =>
    cases hs : a.StringValue with
    | none => exact ⟨a, rfl, hs⟩
    | some s =>
      cases hk : Atoi s with
      | error e => simp [hN, hs, hk] at h
      | ok k =>
        simp only [hN, hs, hk] at h
        split at h <;> simp at h

/-! ## Facts about `SQS_longpolling_receive_message` and its callers -/

theorem queue_poll_resend (md5 : String → String) (name : String) (timeout : Int)
    (prev body handle : String) (attrs : MessageAttributes) (c : Nat)
    (a : MessageAttributeValue) (n : Nat)
    (hd : prev ≠ md5 body) (hN : getAttr attrs "Nodes" = some a)
    (hs : a.StringValue = some (decimal n)) (h2 : 2 ≤ n) (hn : n < 2 ^ 63) :
    SQS_longpolling_receive_message (queueClient md5) name timeout prev
        ⟨[queued md5 body attrs handle], c⟩ =
      { outcome := .returned body
        previousBodyMD5 := md5 body
        events := [.GetQueueUrl name (.ok name),
          .ReceiveMessage name timeout (.ok [queued md5 body attrs handle]),
          .DeleteMessage name handle (.ok ()),
          .SendMessage name body (setStringValue attrs "Nodes" (decimal (n - 1))) (.ok ())]
        world := ⟨[queued md5 body (setStringValue attrs "Nodes" (decimal (n - 1)))
          (String.mk (List.replicate (c + 1) 's'))], c + 1⟩ } := by
  have hk := Atoi_decimal n hn
  have hw : wrapInt ((n : Int) - 1) = ((n - 1 : Nat) : Int) :=
    by rw [wrapInt_of_range _ (by omega) (by omega)]; omega
  have h0 : ¬ (((n - 1 : Nat) : Int) = 0) := by omega
  simp [SQS_longpolling_receive_message, queueClient, queued, share_message, hN, hs, hk, hw, h0,
    Ne.symm hd, Itoa_natCast]

theorem queue_poll_last (md5 : String → String) (name : String) (timeout : Int)
    (prev body handle : String) (attrs : MessageAttributes) (c : Nat)
    (a : MessageAttributeValue)
    (hd : prev ≠ md5 body) (hN : getAttr attrs "Nodes" = some a)
    (hs : a.StringValue = some (decimal 1)) :
    SQS_longpolling_receive_message (queueClient md5) name timeout prev
        ⟨[queued md5 body attrs handle], c⟩ =
      { outcome := .returned body
        previousBodyMD5 := md5 body
        events := [.GetQueueUrl name (.ok name),
          .ReceiveMessage name timeout (.ok [queued md5 body attrs handle]),
          .DeleteMessage name handle (.ok ())]
        world := ⟨[], c⟩ } := by
  have hk := Atoi_decimal 1 (by norm_num)
  have hw : wrapInt 0 = 0 := by decide
  simp [SQS_longpolling_receive_message, queueClient, queued, share_message, hN, hs, hk, hw,
    Ne.symm hd]

theorem queue_poll_empty (md5 : String → String) (name : String) (timeout : Int)
    (prev : String) (c : Nat) :
    SQS_longpolling_receive_message (queueClient md5) name timeout prev ⟨[], c⟩ =
      { outcome := .returned ""
        previousBodyMD5 := prev
        events := [.GetQueueUrl name (.ok name), .ReceiveMessage name timeout (.ok [])]
        world := ⟨[], c⟩ } := by
  simp [SQS_longpolling_receive_message, queueClient]

theorem queue_poll_duplicate (md5 : String → String) (name : String) (timeout : Int)
    (body handle : String) (attrs : MessageAttributes) (c : Nat) :
    SQS_longpolling_receive_message (queueClient md5) name timeout (md5 body)
        ⟨[queued md5 body attrs handle], c⟩ =
      { outcome := .returned ""
        previousBodyMD5 := md5 body
        events := [.GetQueueUrl name (.ok name),
          .ReceiveMessage name timeout (.ok [queued md5 body attrs handle]), .Sleep 1]
        world := ⟨[queued md5 body attrs handle], c⟩ } := by
  simp [SQS_longpolling_receive_message, queueClient, queued]

theorem fanout_round_aux (md5 : String → String) (name : String) (timeout : Int)
    (body : String) (prevs : List String) :
    ∀ (N : Nat) (attrs : MessageAttributes) (handle : String) (c : Nat)
      (a : MessageAttributeValue),
      1 ≤ N → N < 2 ^ 63 → getAttr attrs "Nodes" = some a →
      a.StringValue = some (decimal N) → prevs.length = N → (∀ p ∈ prevs, p ≠ md5 body) →
      (pollEach (queueClient md5) name timeout prevs
          ⟨[queued md5 body attrs handle], c⟩).map (fun r => r.outcome)
        = List.replicate N (.returned body) ∧
      (pollEach (queueClient md5) name timeout prevs
          ⟨[queued md5 body attrs handle], c⟩).map (fun r => sentNodes r.events)
        = (List.iota (N - 1)).map (fun k => [some (decimal k)]) ++ [[]] ∧
      ((pollEach (queueClient md5) name timeout prevs
          ⟨[queued md5 body attrs handle], c⟩).getLast?).map (fun r => r.world.messages)
        = some [] := by
  induction prevs with
  | nil => intro N attrs handle c a h1 _ _ _ hlen; simp at hlen; omega
  | cons p ps ih =>
    intro N attrs handle c a h1 h2 hN hs hlen hp
    have hpd : p ≠ md5 body := hp p (List.mem_cons_self _ _)
    by_cases hone : N = 1
    · subst hone
      have hps : ps = [] := by
        simp at hlen; exact hlen
      subst hps
      simp [pollEach, queue_poll_last md5 name timeout p body handle attrs c a hpd hN hs,
        sentNodes, List.iota]
    · have hstep := queue_poll_resend md5 name timeout p body handle attrs c a N hpd hN hs
        (by omega) h2
      have hN' : getAttr (setStringValue attrs "Nodes" (decimal (N - 1))) "Nodes"
          = some { a with StringValue := some (decimal (N - 1)) } := by
        rw [getAttr_setStringValue_same, hN]; rfl
      have hrec := ih (N - 1) (setStringValue attrs "Nodes" (decimal (N - 1)))
        (String.mk (List.replicate (c + 1) 's')) (c + 1) _ (by omega) (by omega) hN' rfl
        (by simp at hlen; omega) (fun q hq => hp q (List.mem_cons_of_mem _ hq))
      obtain ⟨r1, r2, r3⟩ := hrec
      have hiota : List.iota (N - 1) = (N - 1) :: List.iota (N - 1 - 1) := by
        obtain ⟨k, hk⟩ : ∃ k, N - 1 = k + 1 := ⟨N - 2, by omega⟩
        rw [hk]; simp [List.iota]
      have hrepl : List.replicate N (Outcome.returned body)
          = Outcome.returned body :: List.replicate (N - 1) (Outcome.returned body) := by
        obtain ⟨k, hk⟩ : ∃ k, N = k + 1 := ⟨N - 1, by omega⟩
        rw [hk]; simp [List.replicate]
      have hne : pollEach (queueClient md5) name timeout ps
          ⟨[queued md5 body (setStringValue attrs "Nodes" (decimal (N - 1)))
            (String.mk (List.replicate (c + 1) 's'))], c + 1⟩ ≠ [] := by
        intro h; rw [h] at r1; simp at r1
        obtain ⟨k, hk⟩ : ∃ k, N - 1 = k + 1 := ⟨N - 2, by omega⟩
        rw [hk] at r1; simp [List.replicate] at r1
      refine ⟨?_, ?_, ?_⟩
      · simp only [pollEach, hstep, List.map_cons, r1, hrepl]
      · simp only [pollEach, hstep, List.map_cons, r2, hiota, sentNodes, hN']
        simp [getAttr_setStringValue_same, hN]
      · simp only [pollEach, hstep]
        obtain ⟨y, ys, hy⟩ := List.exists_cons_of_ne_nil hne
        rw [hy] at r3 ⊢
        rw [List.getLast?_cons_cons]
        exact r3

/-! ## The claims -/

/-- Claim C1: when the `"Nodes"` attribute of `M` holds a string that `strconv.Atoi` parses
to `k >= 2`, `share_message` makes exactly one call, a `SendMessage` to the same queue URL
with the body of `M` and the attribute map of `M` in which only the string value of
`"Nodes"` has changed, to `strconv.Itoa (k - 1)`: the other fields of that attribute, every
other key and the set of keys are the same. -/
theorem share_message_decrements {σ : Type} (svc : Client σ) (queueUrl : String) (M : Message)
    (w : σ) (a : MessageAttributeValue) (s : String) (k : Int)
    (hN : getAttr M.MessageAttributes "Nodes" = some a) (hs : a.StringValue = some s)
    (hk : Atoi s = .ok k) (h2 : 2 ≤ k) :
    ∃ attrs : MessageAttributes,
      (share_message svc queueUrl M w).events =
        [.SendMessage queueUrl M.Body attrs (svc.SendMessage queueUrl M.Body attrs w).1] ∧
      (share_message svc queueUrl M w).world = (svc.SendMessage queueUrl M.Body attrs w).2 ∧
      (share_message svc queueUrl M w).panicked = false ∧
      getAttr attrs "Nodes" = some { a with StringValue := some (Itoa (k - 1)) } ∧
      (∀ key, key ≠ "Nodes" → getAttr attrs key = getAttr M.MessageAttributes key) ∧
      attrs.map Prod.fst = M.MessageAttributes.map Prod.fst := by
  have hr := Atoi_range s k hk
  have hw : wrapInt (k - 1) = k - 1 := wrapInt_of_range _ (by omega) (by omega)
  have h0 : ¬ (k - 1 = 0) := by omega
  refine ⟨setStringValue M.MessageAttributes "Nodes" (Itoa (k - 1)), ?_, ?_, ?_, ?_, ?_, ?_⟩
  · simp [share_message, hN, hs, hk, hw, h0]
  · simp [share_message, hN, hs, hk, hw, h0]
  · simp [share_message, hN, hs, hk, hw, h0]
  · rw [getAttr_setStringValue_same, hN]; rfl
  · intro key hkey; exact getAttr_setStringValue_other _ _ _ _ hkey
  · exact keys_setStringValue _ _ _

/-- Claim C1 at the message `{"Command":"pause"}` with `{"Nodes":"3"}`. -/
theorem share_message_decrements_witness :
    ∃ attrs : MessageAttributes,
      (share_message (queueClient sampleDigest) "q" (pauseMessage "3") ⟨[], 0⟩).events =
        [.SendMessage "q" (pauseMessage "3").Body attrs
          ((queueClient sampleDigest).SendMessage "q" (pauseMessage "3").Body attrs ⟨[], 0⟩).1] ∧
      (share_message (queueClient sampleDigest) "q" (pauseMessage "3") ⟨[], 0⟩).world =
        ((queueClient sampleDigest).SendMessage "q" (pauseMessage "3").Body attrs ⟨[], 0⟩).2 ∧
      (share_message (queueClient sampleDigest) "q" (pauseMessage "3") ⟨[], 0⟩).panicked = false ∧
      getAttr attrs "Nodes" = some { numberAttr "3" with StringValue := some (Itoa (3 - 1)) } ∧
      (∀ key, key ≠ "Nodes" →
        getAttr attrs key = getAttr (pauseMessage "3").MessageAttributes key) ∧
      attrs.map Prod.fst = (pauseMessage "3").MessageAttributes.map Prod.fst :=
  share_message_decrements (queueClient sampleDigest) "q" (pauseMessage "3") ⟨[], 0⟩
    (numberAttr "3") "3" 3 (by decide) (by decide) (by decide) (by decide)

/-- Claim C2 as stated fails for a counter beyond the range of Go's `int`: with
`"Nodes"` = 2^63 = 9223372036854775808 the first node's call returns the body but sends
nothing and leaves the queue empty, and the second node's call returns the empty string. -/
theorem fanout_round_out_of_range :
    1 ≤ 2 ^ 63 ∧ decimal (2 ^ 63) = "9223372036854775808" ∧
    (pollEach (queueClient sampleDigest) "q" 20 ["", ""]
        (pauseQueue "9223372036854775808")).map observe =
      [⟨.returned pauseBody, true, [], []⟩, ⟨.returned "", false, [], []⟩] := by
  refine ⟨by decide, by decide, by decide⟩

/-- Claim C2, amended to counters in the range of Go's `int`: for `1 <= N < 2^63`, from a
queue holding one message with `"Nodes"` = `N`, the calls of `N` nodes whose
`previousBodyMD5` differs from the digest of the body all return the body, call `i < N`
sends one message with `"Nodes"` = `N - i` (so `N-1, ..., 1` in order) and call `N` sends
nothing, and after the last call the queue is empty. -/
theorem fanout_round (md5 : String → String) (name : String) (timeout : Int) (N : Nat)
    (body handle : String) (attrs : MessageAttributes) (c : Nat) (a : MessageAttributeValue)
    (prevs : List String)
    (h1 : 1 ≤ N) (h2 : N < 2 ^ 63) (hN : getAttr attrs "Nodes" = some a)
    (hs : a.StringValue = some (decimal N)) (hlen : prevs.length = N)
    (hprev : ∀ p ∈ prevs, p ≠ md5 body) :
    (pollEach (queueClient md5) name timeout prevs
        ⟨[queued md5 body attrs handle], c⟩).map (fun r => r.outcome)
      = List.replicate N (.returned body) ∧
    (pollEach (queueClient md5) name timeout prevs
        ⟨[queued md5 body attrs handle], c⟩).map (fun r => sentNodes r.events)
      = (List.iota (N - 1)).map (fun k => [some (decimal k)]) ++ [[]] ∧
    ((pollEach (queueClient md5) name timeout prevs
        ⟨[queued md5 body attrs handle], c⟩).getLast?).map (fun r => r.world.messages)
      = some [] :=
  fanout_round_aux md5 name timeout body prevs N attrs handle c a h1 h2 hN hs hlen hprev

/-- Claim C2 (amended) at `N = 3` with three fresh nodes. -/
theorem fanout_round_witness :
    (pollEach (queueClient sampleDigest) "q" 20 ["", "", ""]
        ⟨[queued sampleDigest pauseBody [("Nodes", numberAttr "3")] "h0"], 0⟩).map
        (fun r => r.outcome)
      = List.replicate 3 (.returned pauseBody) ∧
    (pollEach (queueClient sampleDigest) "q" 20 ["", "", ""]
        ⟨[queued sampleDigest pauseBody [("Nodes", numberAttr "3")] "h0"], 0⟩).map
        (fun r => sentNodes r.events)
      = (List.iota (3 - 1)).map (fun k => [some (decimal k)]) ++ [[]] ∧
    ((pollEach (queueClient sampleDigest) "q" 20 ["", "", ""]
        ⟨[queued sampleDigest pauseBody [("Nodes", numberAttr "3")] "h0"], 0⟩).getLast?).map
        (fun r => r.world.messages)
      = some [] :=
  fanout_round sampleDigest "q" 20 3 pauseBody "h0" [("Nodes", numberAttr "3")] 0
    (numberAttr "3") ["", "", ""] (by decide) (by decide) (by decide) (by decide) (by decide)
    (by decide)

/-- Claim C3: when the received message has the digest that `previousBodyMD5` holds, the call
returns the empty string, leaves `previousBodyMD5` as it is, and its calls are
`GetQueueUrl`, `ReceiveMessage` and the sleep: no `DeleteMessage`, no `SendMessage`. -/
theorem poll_duplicate_is_skipped {σ : Type} (svc : Client σ) (name : String) (timeout : Int)
    (previousBodyMD5 : String) (w : σ) (queueUrl : String) (m : Message) (rest : List Message)
    (hu : (svc.GetQueueUrl name w).1 = .ok queueUrl)
    (hr : (svc.ReceiveMessage queueUrl timeout (svc.GetQueueUrl name w).2).1 = .ok (m :: rest))
    (hd : m.MD5OfBody = previousBodyMD5) :
    (SQS_longpolling_receive_message svc name timeout previousBodyMD5 w).outcome = .returned "" ∧
    (SQS_longpolling_receive_message svc name timeout previousBodyMD5 w).previousBodyMD5
      = previousBodyMD5 ∧
    (SQS_longpolling_receive_message svc name timeout previousBodyMD5 w).events =
      [.GetQueueUrl name (.ok queueUrl), .ReceiveMessage queueUrl timeout (.ok (m :: rest)),
       .Sleep 1] ∧
    (∀ u h r, Event.DeleteMessage u h r ∉
      (SQS_longpolling_receive_message svc name timeout previousBodyMD5 w).events) ∧
    (∀ u b a r, Event.SendMessage u b a r ∉
      (SQS_longpolling_receive_message svc name timeout previousBodyMD5 w).events) := by
  simp [SQS_longpolling_receive_message, hu, hr, hd]

/-- Claim C3 at a queue whose message has the digest the node saw last. -/
theorem poll_duplicate_is_skipped_witness :
    (SQS_longpolling_receive_message (queueClient sampleDigest) "q" 20
      (sampleDigest pauseBody) (pauseQueue "3")).outcome = .returned "" ∧
    (SQS_longpolling_receive_message (queueClient sampleDigest) "q" 20
      (sampleDigest pauseBody) (pauseQueue "3")).previousBodyMD5 = sampleDigest pauseBody ∧
    (SQS_longpolling_receive_message (queueClient sampleDigest) "q" 20
      (sampleDigest pauseBody) (pauseQueue "3")).events =
      [.GetQueueUrl "q" (.ok "q"), .ReceiveMessage "q" 20 (.ok [pauseMessage "3"]), .Sleep 1] :=
  have h := poll_duplicate_is_skipped (queueClient sampleDigest) "q" 20
    (sampleDigest pauseBody) (pauseQueue "3") "q" (pauseMessage "3") [] rfl rfl rfl
  ⟨h.1, h.2.1, h.2.2.1⟩

/-- Claim C5: for every call and every initial `previousBodyMD5`, if the call returns a
non-empty body then it received a message with that body and `previousBodyMD5` now holds
that message's digest; if it returns the empty string then `previousBodyMD5` is unchanged.
SQS delivers no message with an empty body, which is the hypothesis. -/
theorem poll_lastSeenDigest {σ : Type} (svc : Client σ) (name : String) (timeout : Int)
    (previousBodyMD5 : String) (w : σ)
    (hbody : ∀ queueUrl m rest, (svc.GetQueueUrl name w).1 = .ok queueUrl →
      (svc.ReceiveMessage queueUrl timeout (svc.GetQueueUrl name w).2).1 = .ok (m :: rest) →
      m.Body ≠ "") :
    (∀ body, body ≠ "" →
      (SQS_longpolling_receive_message svc name timeout previousBodyMD5 w).outcome
        = .returned body →
      ∃ queueUrl m rest, (svc.GetQueueUrl name w).1 = .ok queueUrl ∧
        (svc.ReceiveMessage queueUrl timeout (svc.GetQueueUrl name w).2).1 = .ok (m :: rest) ∧
        body = m.Body ∧
        (SQS_longpolling_receive_message svc name timeout previousBodyMD5 w).previousBodyMD5
          = m.MD5OfBody) ∧
    ((SQS_longpolling_receive_message svc name timeout previousBodyMD5 w).outcome
        = .returned "" →
      (SQS_longpolling_receive_message svc name timeout previousBodyMD5 w).previousBodyMD5
        = previousBodyMD5) := by
  unfold SQS_longpolling_receive_message
  cases hu : (svc.GetQueueUrl name w).1 with
  | error e => simp [hu]
  | ok url =>
    cases hr : (svc.ReceiveMessage url timeout (svc.GetQueueUrl name w).2).1 with
    | error e => simp [hu, hr]
    | ok ms =>
      cases ms with
      | nil =>
        simp [hu, hr]
        intro body hne h; exact absurd h.symm hne
      | cons m rest =>
        have hmb := hbody url m rest hu hr
        by_cases hd : m.MD5OfBody = previousBodyMD5
        · simp [hu, hr, hd]
          intro body hne h; exact absurd h.symm hne
        · cases hdel : (svc.DeleteMessage url m.ReceiptHandle
            (svc.ReceiveMessage url timeout (svc.GetQueueUrl name w).2).2).1 with
          | error e => simp [hu, hr, hd, hdel]
          | ok x =>
            cases hp : (share_message svc url m (svc.DeleteMessage url m.ReceiptHandle
              (svc.ReceiveMessage url timeout (svc.GetQueueUrl name w).2).2).2).panicked with
            | true => simp [hu, hr, hd, hdel, hp]
            | false =>
              simp [hu, hr, hd, hdel, hp, share_message_body]
              constructor
              · intro body _ h; exact h.symm
              · intro h; exact absurd h hmb

/-- Claim C5 at a fresh node polling the queue with the pause message. -/
theorem poll_lastSeenDigest_witness :
    (SQS_longpolling_receive_message (queueClient sampleDigest) "q" 20 ""
      (pauseQueue "3")).outcome = .returned pauseBody ∧
    ∃ queueUrl m rest, ((queueClient sampleDigest).GetQueueUrl "q" (pauseQueue "3")).1
        = .ok queueUrl ∧
      ((queueClient sampleDigest).ReceiveMessage queueUrl 20
        ((queueClient sampleDigest).GetQueueUrl "q" (pauseQueue "3")).2).1 = .ok (m :: rest) ∧
      pauseBody = m.Body ∧
      (SQS_longpolling_receive_message (queueClient sampleDigest) "q" 20 ""
        (pauseQueue "3")).previousBodyMD5 = m.MD5OfBody :=
  ⟨by decide,
   (poll_lastSeenDigest (queueClient sampleDigest) "q" 20 "" (pauseQueue "3")
      (by
        intro queueUrl m rest _ h
        simp [queueClient, pauseQueue] at h
        rw [← h.1]
        decide)).1 pauseBody (by decide) (by decide)⟩

/-- Claim C6 as stated fails at its second call: the message sent back has the body of the
first message, hence its digest, and that digest is what `previousBodyMD5` holds after the
first call. The second call of the same node returns the empty string, deletes nothing and
sends nothing. -/
theorem end_to_end_same_node_skips :
    (pollLoop (queueClient sampleDigest) [("q", 20), ("q", 20)] "" (pauseQueue "3")).map
        (fun r => (r.previousBodyMD5, observe r)) =
      [(sampleDigest pauseBody,
          ⟨.returned pauseBody, true, [some "2"],
            [(pauseBody, sampleDigest pauseBody, [("Nodes", numberAttr "2")])]⟩),
       (sampleDigest pauseBody,
          ⟨.returned "", false, [],
            [(pauseBody, sampleDigest pauseBody, [("Nodes", numberAttr "2")])]⟩)] := by
  decide

/-- Claim C6, amended: the queue holds one message with body `{"Command":"pause"}` and
attributes `{"Nodes":"3"}`. A call with `previousBodyMD5 = ""` deletes it, returns the body
and sends it back with `{"Nodes":"2"}` and the same digest; a call whose `previousBodyMD5`
is that digest returns the empty string and deletes nothing, while a call whose
`previousBodyMD5` differs from it returns the body and sends `{"Nodes":"1"}`; a third such
call returns the body and sends nothing; a fourth call finds the queue empty and returns
the empty string. -/
theorem end_to_end_fanout (md5 : String → String) (name : String) (timeout : Int)
    (handle : String) (a : MessageAttributeValue) (p2 p3 p4 : String)
    (ha : a.StringValue = some "3") (h1 : md5 pauseBody ≠ "")
    (h2 : p2 ≠ md5 pauseBody) (h3 : p3 ≠ md5 pauseBody) :
    (pollEach (queueClient md5) name timeout ["", p2, p3, p4]
        ⟨[queued md5 pauseBody [("Nodes", a)] handle], 0⟩).map observe =
      [⟨.returned pauseBody, true, [some "2"],
          [(pauseBody, md5 pauseBody, [("Nodes", { a with StringValue := some "2" })])]⟩,
       ⟨.returned pauseBody, true, [some "1"],
          [(pauseBody, md5 pauseBody, [("Nodes", { a with StringValue := some "1" })])]⟩,
       ⟨.returned pauseBody, true, [], []⟩,
       ⟨.returned "", false, [], []⟩] ∧
    (pollLoop (queueClient md5) [(name, timeout), (name, timeout)] ""
        ⟨[queued md5 pauseBody [("Nodes", a)] handle], 0⟩).map
        (fun r => (r.previousBodyMD5, observe r)) =
      [(md5 pauseBody, ⟨.returned pauseBody, true, [some "2"],
          [(pauseBody, md5 pauseBody, [("Nodes", { a with StringValue := some "2" })])]⟩),
       (md5 pauseBody, ⟨.returned "", false, [],
          [(pauseBody, md5 pauseBody, [("Nodes", { a with StringValue := some "2" })])]⟩)] := by
  have d3 : decimal 3 = "3" := by decide
  have d2 : decimal 2 = "2" := by decide
  have d1 : decimal 1 = "1" := by decide
  have s1 := queue_poll_resend md5 name timeout "" pauseBody handle [("Nodes", a)] 0 a 3
    (Ne.symm h1) (by simp [getAttr]) (by rw [ha, d3]) (by norm_num) (by norm_num)
  have e2 : setStringValue [("Nodes", a)] "Nodes" (decimal (3 - 1))
      = [("Nodes", { a with StringValue := some "2" })] := by
    simp [setStringValue, d2]
  rw [e2] at s1
  have s2 := queue_poll_resend md5 name timeout p2 pauseBody
    (String.mk (List.replicate (0 + 1) 's')) [("Nodes", { a with StringValue := some "2" })]
    (0 + 1) { a with StringValue := some "2" } 2 h2 (by simp [getAttr]) (by simp [d2])
    (by norm_num) (by norm_num)
  have e1 : setStringValue [("Nodes", { a with StringValue := some "2" })] "Nodes"
      (decimal (2 - 1)) = [("Nodes", { a with StringValue := some "1" })] := by
    simp [setStringValue, d1]
  rw [e1] at s2
  have s3 := queue_poll_last md5 name timeout p3 pauseBody
    (String.mk (List.replicate (0 + 1 + 1) 's')) [("Nodes", { a with StringValue := some "1" })]
    (0 + 1 + 1) { a with StringValue := some "1" } h3 (by simp [getAttr]) (by simp [d1])
  have s4 := queue_poll_empty md5 name timeout p4 (0 + 1 + 1)
  have sd := queue_poll_duplicate md5 name timeout pauseBody
    (String.mk (List.replicate (0 + 1) 's')) [("Nodes", { a with StringValue := some "2" })]
    (0 + 1)
  constructor
  · simp only [pollEach, s1, s2, s3, s4, List.map]
    simp [observe, sentNodes, deletedOk, queued, getAttr]
  · simp only [pollLoop, s1, sd, List.map]
    simp [observe, sentNodes, deletedOk, queued, getAttr]

/-- Claim C6 (amended) with fresh nodes and a stand-in digest. -/
theorem end_to_end_fanout_witness :
    (pollEach (queueClient sampleDigest) "q" 20 ["", "", "", ""]
        ⟨[queued sampleDigest pauseBody [("Nodes", numberAttr "3")] "h0"], 0⟩).map observe =
      [⟨.returned pauseBody, true, [some "2"],
          [(pauseBody, sampleDigest pauseBody,
            [("Nodes", { numberAttr "3" with StringValue := some "2" })])]⟩,
       ⟨.returned pauseBody, true, [some "1"],
          [(pauseBody, sampleDigest pauseBody,
            [("Nodes", { numberAttr "3" with StringValue := some "1" })])]⟩,
       ⟨.returned pauseBody, true, [], []⟩,
       ⟨.returned "", false, [], []⟩] :=
  (end_to_end_fanout sampleDigest "q" 20 "h0" (numberAttr "3") "" "" ""
    (by decide) (by decide) (by decide) (by decide)).1

/-- Claim C7: when the `"Nodes"` attribute holds the string `"1"`, `share_message` makes no
call at all (no send), whatever the body and the other attributes. -/
theorem share_message_last_node {σ : Type} (svc : Client σ) (queueUrl : String) (M : Message)
    (w : σ) (a : MessageAttributeValue)
    (hN : getAttr M.MessageAttributes "Nodes" = some a) (hs : a.StringValue = some "1") :
    (share_message svc queueUrl M w).events = [] ∧
    (share_message svc queueUrl M w).world = w ∧
    (share_message svc queueUrl M w).panicked = false := by
  have h1 : Atoi "1" = .ok 1 := by decide
  have h0 : wrapInt 0 = 0 := by decide
  simp [share_message, hN, hs, h1, h0]

/-- Claim C7 at the pause message with `{"Nodes":"1"}`. -/
theorem share_message_last_node_witness :
    (share_message (queueClient sampleDigest) "q" (pauseMessage "1") ⟨[], 0⟩).events = [] ∧
    (share_message (queueClient sampleDigest) "q" (pauseMessage "1") ⟨[], 0⟩).world = ⟨[], 0⟩ ∧
    (share_message (queueClient sampleDigest) "q" (pauseMessage "1") ⟨[], 0⟩).panicked = false :=
  share_message_last_node (queueClient sampleDigest) "q" (pauseMessage "1") ⟨[], 0⟩
    (numberAttr "1") (by decide) (by decide)

/-- Claim C8: when the attribute map has no `"Nodes"` key, `share_message` makes no call at
all (no send), whatever the body and the other attributes. -/
theorem share_message_no_counter {σ : Type} (svc : Client σ) (queueUrl : String) (M : Message)
    (w : σ) (hN : getAttr M.MessageAttributes "Nodes" = none) :
    (share_message svc queueUrl M w).events = [] ∧
    (share_message svc queueUrl M w).world = w ∧
    (share_message svc queueUrl M w).panicked = false := by
  simp [share_message, hN]

/-- Claim C8 at a pause message whose only attribute is `"Interval"`. -/
theorem share_message_no_counter_witness :
    (share_message (queueClient sampleDigest) "q"
      (queued sampleDigest pauseBody [("Interval", numberAttr "60")] "h0") ⟨[], 0⟩).events = [] ∧
    (share_message (queueClient sampleDigest) "q"
      (queued sampleDigest pauseBody [("Interval", numberAttr "60")] "h0") ⟨[], 0⟩).world
        = ⟨[], 0⟩ ∧
    (share_message (queueClient sampleDigest) "q"
      (queued sampleDigest pauseBody [("Interval", numberAttr "60")] "h0") ⟨[], 0⟩).panicked
        = false :=
  share_message_no_counter (queueClient sampleDigest) "q"
    (queued sampleDigest pauseBody [("Interval", numberAttr "60")] "h0") ⟨[], 0⟩ (by decide)

/-- Claim C9: when the `"Nodes"` attribute holds a string on which `strconv.Atoi` returns an
error (syntax or range), `share_message` makes no call at all (no send) and returns
normally: it does not panic and nothing exits. -/
theorem share_message_malformed_counter {σ : Type} (svc : Client σ) (queueUrl : String)
    (M : Message) (w : σ) (a : MessageAttributeValue) (s : String) (e : NumError)
    (hN : getAttr M.MessageAttributes "Nodes" = some a) (hs : a.StringValue = some s)
    (he : Atoi s = .error e) :
    (share_message svc queueUrl M w).events = [] ∧
    (share_message svc queueUrl M w).world = w ∧
    (share_message svc queueUrl M w).panicked = false := by
  simp [share_message, hN, hs, he]

/-- Claim C9 at the pause message with `{"Nodes":"1.5"}`. -/
theorem share_message_malformed_counter_witness :
    (share_message (queueClient sampleDigest) "q" (pauseMessage "1.5") ⟨[], 0⟩).events = [] ∧
    (share_message (queueClient sampleDigest) "q" (pauseMessage "1.5") ⟨[], 0⟩).world
      = ⟨[], 0⟩ ∧
    (share_message (queueClient sampleDigest) "q" (pauseMessage "1.5") ⟨[], 0⟩).panicked
      = false :=
  share_message_malformed_counter (queueClient sampleDigest) "q" (pauseMessage "1.5") ⟨[], 0⟩
    (numberAttr "1.5") "1.5" .ErrSyntax (by decide) (by decide) (by decide)

/-- Where the `"Nodes"` attribute is absent or holds a string: for a received message whose
digest differs from `previousBodyMD5` and whose delete succeeds, the call returns exactly
the body of that message, whatever the client answers to the `SendMessage` and whatever
the string is (malformed, `"1"`, a number `>= 2`, or anything else). -/
theorem poll_returns_body_whatever_fanout {σ : Type} (svc : Client σ) (name : String)
    (timeout : Int) (previousBodyMD5 : String) (w : σ) (queueUrl : String) (m : Message)
    (rest : List Message)
    (hu : (svc.GetQueueUrl name w).1 = .ok queueUrl)
    (hr : (svc.ReceiveMessage queueUrl timeout (svc.GetQueueUrl name w).2).1 = .ok (m :: rest))
    (hd : m.MD5OfBody ≠ previousBodyMD5)
    (hdel : (svc.DeleteMessage queueUrl m.ReceiptHandle
      (svc.ReceiveMessage queueUrl timeout (svc.GetQueueUrl name w).2).2).1 = .ok ())
    (hstr : ∀ a, getAttr m.MessageAttributes "Nodes" = some a → a.StringValue ≠ none) :
    (SQS_longpolling_receive_message svc name timeout previousBodyMD5 w).outcome
      = .returned m.Body := by
  have hp : (share_message svc queueUrl m (svc.DeleteMessage queueUrl m.ReceiptHandle
      (svc.ReceiveMessage queueUrl timeout (svc.GetQueueUrl name w).2).2).2).panicked = false := by
    cases hpan : (share_message svc queueUrl m (svc.DeleteMessage queueUrl m.ReceiptHandle
      (svc.ReceiveMessage queueUrl timeout (svc.GetQueueUrl name w).2).2).2).panicked with
    | false => rfl
    | true =>
      obtain ⟨a, ha, hnone⟩ := share_message_panicked _ _ _ _ hpan
      exact absurd hnone (hstr a ha)
  simp [SQS_longpolling_receive_message, hu, hr, hd, hdel, hp, share_message_body]

/-- A client whose `SendMessage` fails: the call still returns the body. -/
theorem poll_returns_body_whatever_fanout_witness :
    (SQS_longpolling_receive_message scriptClient "q" 20 ""
        ⟨[.ok [pauseMessage "3"]], [.ok ()], [.error .Other]⟩).events =
      [.GetQueueUrl "q" (.ok "q"), .ReceiveMessage "q" 20 (.ok [pauseMessage "3"]),
       .DeleteMessage "q" "h0" (.ok ()),
       .SendMessage "q" pauseBody [("Nodes", numberAttr "2")] (.error .Other)] ∧
    (SQS_longpolling_receive_message scriptClient "q" 20 ""
        ⟨[.ok [pauseMessage "3"]], [.ok ()], [.error .Other]⟩).outcome
      = .returned (pauseMessage "3").Body :=
  ⟨by decide,
   poll_returns_body_whatever_fanout scriptClient "q" 20 ""
    ⟨[.ok [pauseMessage "3"]], [.ok ()], [.error .Other]⟩ "q" (pauseMessage "3") []
    rfl rfl (by decide) rfl
    (by
      intro a h
      simp [getAttr, pauseMessage, queued] at h
      rw [← h]
      simp [numberAttr])⟩

/-- Claim C10 fails on the code at a message whose `"Nodes"` attribute has the `Binary`
data type, hence no string value: the digest differs and the delete succeeds, yet the call
returns no body. It deletes the message, stores its digest in `previousBodyMD5`, and
`share_message` dereferences the nil `StringValue` at line 124: the call panics, and the
queue no longer holds the message. -/
theorem poll_binary_counter_panics :
    (SQS_longpolling_receive_message (queueClient sampleDigest) "q" 20 ""
        ⟨[queued sampleDigest pauseBody [("Nodes", binaryAttr [51])] "h0"], 0⟩).outcome
      = .panicked ∧
    (SQS_longpolling_receive_message (queueClient sampleDigest) "q" 20 ""
        ⟨[queued sampleDigest pauseBody [("Nodes", binaryAttr [51])] "h0"], 0⟩).events =
      [.GetQueueUrl "q" (.ok "q"),
       .ReceiveMessage "q" 20
         (.ok [queued sampleDigest pauseBody [("Nodes", binaryAttr [51])] "h0"]),
       .DeleteMessage "q" "h0" (.ok ())] ∧
    (SQS_longpolling_receive_message (queueClient sampleDigest) "q" 20 ""
        ⟨[queued sampleDigest pauseBody [("Nodes", binaryAttr [51])] "h0"], 0⟩).previousBodyMD5
      = sampleDigest pauseBody ∧
    (SQS_longpolling_receive_message (queueClient sampleDigest) "q" 20 ""
        ⟨[queued sampleDigest pauseBody [("Nodes", binaryAttr [51])] "h0"], 0⟩).world.messages
      = [] := by
  decide

/-! ## Further facts: `Atoi` after `Itoa` -/

theorem Atoi_Itoa_neg (u : Nat) (h1 : 1 ≤ u) (h2 : u < 2 ^ 63) :
    Atoi (Itoa (-(u : Int))) = .ok (-(u : Int)) := by
  have hf : u < 10 ^ (64 + 1) := lt_trans h2 (by norm_num)
  obtain ⟨c, rest, hc, hdec⟩ := formatBits_head 64 u []
  have f1 := fast_formatBits 64 u [] hf h2
  have f2 := loop_formatBits 64 u [] hf (by omega)
  have hneg : (-(u : Int)) < 0 := by omega
  have hnat : (-(-(u : Int))).toNat = u := by simp
  have hI : Itoa (-(u : Int)) = String.mk ('-' :: formatBits 64 u []) := by
    simp [Itoa, FormatInt, hneg]
  rw [hI]
  rw [hc] at f1 f2
  simp only [Atoi, AtoiChars, hc]
  split
  · simp only [true_or, or_true, ite_true, f1]
    have hw := wrapInt_of_range (-(u : Int)) (by omega) (by omega)
    simp [Atoi.fast, hw]
  · simp only [ParseInt, ParseUint, true_or, or_true, ite_true, f2]
    have hw := wrapInt_of_range (-(u : Int)) (by omega) (by omega)
    have hw2 := wrapInt_of_range (u : Int) (by omega) (by omega)
    have hle : ¬ (9223372036854775808 < u) := by omega
    simp [ParseUint.loop, hw, hw2, hle]

theorem Atoi_Itoa (k : Int) (h1 : -2 ^ 63 ≤ k) (h2 : k < 2 ^ 63) : Atoi (Itoa k) = .ok k := by
  by_cases h0 : 0 ≤ k
  · obtain ⟨n, rfl⟩ := Int.eq_ofNat_of_zero_le h0
    rw [Itoa_natCast]
    exact Atoi_decimal n (by omega)
  · by_cases hmin : k = -2 ^ 63
    · subst hmin; decide
    · obtain ⟨u, hu⟩ : ∃ u : Nat, k = -(u : Int) := ⟨(-k).toNat, by omega⟩
      subst hu
      exact Atoi_Itoa_neg u (by omega) (by omega)

/-! ## Further facts: the shape of a trace -/

theorem share_message_events {σ : Type} (svc : Client σ) (queueUrl : String) (M : Message)
    (w : σ) :
    (share_message svc queueUrl M w).events = [] ∨
    ∃ attrs r, (share_message svc queueUrl M w).events =
      [.SendMessage queueUrl M.Body attrs r] := by
  unfold share_message
  cases hN : getAttr M.MessageAttributes "Nodes" with
  | none => simp
  | some a =>
    cases hs : a.StringValue with
    | none => simp [hs]
    | some s =>
      cases hk : Atoi s with
      | error e => simp [hs, hk]
      | ok k =>
        simp only [hs, hk]
        split
        · simp
        · exact Or.inr ⟨_, _, rfl⟩

theorem poll_trace_shapes {σ : Type} (svc : Client σ) (name : String) (timeout : Int)
    (prev : String) (w : σ) (queueUrl : String)
    (hu : (svc.GetQueueUrl name w).1 = .ok queueUrl) :
    (∃ x, (∀ m rest, x ≠ .ok (m :: rest)) ∧
      (svc.ReceiveMessage queueUrl timeout (svc.GetQueueUrl name w).2).1 = x ∧
      (SQS_longpolling_receive_message svc name timeout prev w).events =
        [.GetQueueUrl name (.ok queueUrl), .ReceiveMessage queueUrl timeout x]) ∨
    (∃ m rest,
      (svc.ReceiveMessage queueUrl timeout (svc.GetQueueUrl name w).2).1 = .ok (m :: rest) ∧
      m.MD5OfBody = prev ∧
      (SQS_longpolling_receive_message svc name timeout prev w).events =
        [.GetQueueUrl name (.ok queueUrl), .ReceiveMessage queueUrl timeout (.ok (m :: rest)),
         .Sleep 1]) ∨
    (∃ m rest d,
      (svc.ReceiveMessage queueUrl timeout (svc.GetQueueUrl name w).2).1 = .ok (m :: rest) ∧
      m.MD5OfBody ≠ prev ∧
      (SQS_longpolling_receive_message svc name timeout prev w).events =
        [.GetQueueUrl name (.ok queueUrl), .ReceiveMessage queueUrl timeout (.ok (m :: rest)),
         .DeleteMessage queueUrl m.ReceiptHandle d]) ∨
    (∃ m rest attrs r,
      (svc.ReceiveMessage queueUrl timeout (svc.GetQueueUrl name w).2).1 = .ok (m :: rest) ∧
      m.MD5OfBody ≠ prev ∧
      (SQS_longpolling_receive_message svc name timeout prev w).events =
        [.GetQueueUrl name (.ok queueUrl), .ReceiveMessage queueUrl timeout (.ok (m :: rest)),
         .DeleteMessage queueUrl m.ReceiptHandle (.ok ()),
         .SendMessage queueUrl m.Body attrs r]) := by
  unfold SQS_longpolling_receive_message
  cases hr : (svc.ReceiveMessage queueUrl timeout (svc.GetQueueUrl name w).2).1 with
  | error e =>
    left
    exact ⟨.error e, by simp, rfl, by simp [hu, hr]⟩
  | ok ms =>
    cases ms with
    | nil =>
      left
      exact ⟨.ok [], by simp, rfl, by simp [hu, hr]⟩
    | cons m rest =>
      right
      by_cases hd : m.MD5OfBody = prev
      · left
        exact ⟨m, rest, rfl, hd, by simp [hu, hr, hd]⟩
      · right
        cases hdel : (svc.DeleteMessage queueUrl m.ReceiptHandle
            (svc.ReceiveMessage queueUrl timeout (svc.GetQueueUrl name w).2).2).1 with
        | error e =>
          left
          exact ⟨m, rest, .error e, rfl, hd, by simp [hu, hr, hd, hdel]⟩
        | ok x =>
          rcases share_message_events svc queueUrl m (svc.DeleteMessage queueUrl m.ReceiptHandle
            (svc.ReceiveMessage queueUrl timeout (svc.GetQueueUrl name w).2).2).2 with he | he
          · left
            refine ⟨m, rest, .ok (), rfl, hd, ?_⟩
            simp only [hu, hr, hd, hdel, if_false]
            split <;> simp [he]
          · right
            obtain ⟨attrs, r, he⟩ := he
            refine ⟨m, rest, attrs, r, rfl, hd, ?_⟩
            simp only [hu, hr, hd, hdel, if_false]
            split <;> simp [he]


/-! ## Further facts: the counter that `share_message` sends -/

theorem wrapInt_pred (k : Int) (h1 : -2 ^ 63 ≤ k) (h2 : k < 2 ^ 63) :
    (k ≠ -2 ^ 63 → wrapInt (k - 1) = k - 1) ∧
    (k = -2 ^ 63 → wrapInt (k - 1) = 2 ^ 63 - 1) := by
  unfold wrapInt
  constructor <;> intro h <;> omega

theorem share_message_sent_counter {σ : Type} (svc : Client σ) (queueUrl : String)
    (M : Message) (w : σ) (a : MessageAttributeValue) (s : String) (k : Int)
    (hN : getAttr M.MessageAttributes "Nodes" = some a) (hs : a.StringValue = some s)
    (hk : Atoi s = .ok k) :
    (wrapInt (k - 1) = 0 → (share_message svc queueUrl M w).events = []) ∧
    (wrapInt (k - 1) ≠ 0 →
      (share_message svc queueUrl M w).events =
        [.SendMessage queueUrl M.Body
          (setStringValue M.MessageAttributes "Nodes" (Itoa (wrapInt (k - 1))))
          (svc.SendMessage queueUrl M.Body
            (setStringValue M.MessageAttributes "Nodes" (Itoa (wrapInt (k - 1)))) w).1] ∧
      Atoi (Itoa (wrapInt (k - 1))) = .ok (wrapInt (k - 1))) := by
  constructor
  · intro h0
    simp [share_message, hN, hs, hk, h0]
  · intro h0
    have hr := wrapInt_range (k - 1)
    exact ⟨by simp [share_message, hN, hs, hk, h0], Atoi_Itoa _ hr.1 hr.2⟩

/-! ## The claims, continued -/

/-- Claim C11: when the received message has a digest other than `previousBodyMD5` and the
`DeleteMessage` call fails, the call ends in `exitErrorf` (exit code 1): it returns no body,
`previousBodyMD5` keeps its value, and the trace ends with the failed delete, so nothing is
sent. -/
theorem poll_delete_failure_is_fatal {σ : Type} (svc : Client σ) (name : String)
    (timeout : Int) (previousBodyMD5 : String) (w : σ) (queueUrl : String) (m : Message)
    (rest : List Message) (e : AwsErr)
    (hu : (svc.GetQueueUrl name w).1 = .ok queueUrl)
    (hr : (svc.ReceiveMessage queueUrl timeout (svc.GetQueueUrl name w).2).1 = .ok (m :: rest))
    (hd : m.MD5OfBody ≠ previousBodyMD5)
    (hdel : (svc.DeleteMessage queueUrl m.ReceiptHandle
      (svc.ReceiveMessage queueUrl timeout (svc.GetQueueUrl name w).2).2).1 = .error e) :
    (SQS_longpolling_receive_message svc name timeout previousBodyMD5 w).outcome = .exited 1 ∧
    (∀ body, (SQS_longpolling_receive_message svc name timeout previousBodyMD5 w).outcome
      ≠ .returned body) ∧
    (SQS_longpolling_receive_message svc name timeout previousBodyMD5 w).previousBodyMD5
      = previousBodyMD5 ∧
    (SQS_longpolling_receive_message svc name timeout previousBodyMD5 w).events =
      [.GetQueueUrl name (.ok queueUrl), .ReceiveMessage queueUrl timeout (.ok (m :: rest)),
       .DeleteMessage queueUrl m.ReceiptHandle (.error e)] ∧
    (∀ u b a r, Event.SendMessage u b a r ∉
      (SQS_longpolling_receive_message svc name timeout previousBodyMD5 w).events) := by
  simp [SQS_longpolling_receive_message, hu, hr, hd, hdel]

/-- Claim C11 at a client whose `DeleteMessage` fails. -/
theorem poll_delete_failure_is_fatal_witness :
    (SQS_longpolling_receive_message scriptClient "q" 20 ""
        ⟨[.ok [pauseMessage "3"]], [.error .Other], []⟩).outcome = .exited 1 ∧
    (SQS_longpolling_receive_message scriptClient "q" 20 ""
        ⟨[.ok [pauseMessage "3"]], [.error .Other], []⟩).previousBodyMD5 = "" ∧
    (SQS_longpolling_receive_message scriptClient "q" 20 ""
        ⟨[.ok [pauseMessage "3"]], [.error .Other], []⟩).events =
      [.GetQueueUrl "q" (.ok "q"), .ReceiveMessage "q" 20 (.ok [pauseMessage "3"]),
       .DeleteMessage "q" (pauseMessage "3").ReceiptHandle (.error .Other)] :=
  have h := poll_delete_failure_is_fatal scriptClient "q" 20 ""
    ⟨[.ok [pauseMessage "3"]], [.error .Other], []⟩ "q" (pauseMessage "3") [] .Other
    rfl rfl (by decide) rfl
  ⟨h.1, h.2.2.1, h.2.2.2.1⟩

/-- Claim C12 fails on the code at `"Nodes"` = `"0"`: the counter is decremented to -1, which
is not 0, so the message is sent again with `"Nodes"` = `"-1"`, and the following nodes send
`"-2"`, `"-3"`, and so on: the values sent do not parse to an integer `>= 1`. -/
theorem share_message_zero_counter :
    (share_message (queueClient sampleDigest) "q" (pauseMessage "0") ⟨[], 0⟩).events =
      [.SendMessage "q" pauseBody [("Nodes", numberAttr "-1")] (.ok ())] ∧
    Atoi "-1" = .ok (-1) ∧
    (pollEach (queueClient sampleDigest) "q" 20 ["", "", ""] (pauseQueue "0")).map
        (fun r => sentNodes r.events) = [[some "-1"], [some "-2"], [some "-3"]] := by
  decide

/-- Claim C13 fails on the code at `"Nodes"` = `"-9223372036854775808"`, the least `int`:
the decrement wraps around and the message is sent with `"Nodes"` =
`"9223372036854775807"`, the greatest `int`, which is more than the value received. -/
theorem share_message_min_counter :
    Atoi "-9223372036854775808" = .ok (-9223372036854775808) ∧
    (share_message (queueClient sampleDigest) "q" (pauseMessage "-9223372036854775808")
        ⟨[], 0⟩).events =
      [.SendMessage "q" pauseBody [("Nodes", numberAttr "9223372036854775807")] (.ok ())] ∧
    Atoi "9223372036854775807" = .ok 9223372036854775807 ∧
    (-9223372036854775808 : Int) < 9223372036854775807 := by
  decide

/-- Claim C14: once the queue URL is resolved, the operations of a call on the queue are
`receive`, or `receive, delete`, or `receive, delete, send`, in this order; a delete is made
only for a received message whose digest differs from `previousBodyMD5`, with its receipt
handle, and a send only when the delete of that message has succeeded. -/
theorem poll_operations {σ : Type} (svc : Client σ) (name : String) (timeout : Int)
    (previousBodyMD5 : String) (w : σ) (queueUrl : String)
    (hu : (svc.GetQueueUrl name w).1 = .ok queueUrl) :
    (operations (SQS_longpolling_receive_message svc name timeout previousBodyMD5 w).events
        = [.receive] ∨
      operations (SQS_longpolling_receive_message svc name timeout previousBodyMD5 w).events
        = [.receive, .delete] ∨
      operations (SQS_longpolling_receive_message svc name timeout previousBodyMD5 w).events
        = [.receive, .delete, .send]) ∧
    (Operation.delete ∈
        operations (SQS_longpolling_receive_message svc name timeout previousBodyMD5 w).events →
      ∃ m rest d,
        (svc.ReceiveMessage queueUrl timeout (svc.GetQueueUrl name w).2).1 = .ok (m :: rest) ∧
        m.MD5OfBody ≠ previousBodyMD5 ∧
        Event.DeleteMessage queueUrl m.ReceiptHandle d ∈
          (SQS_longpolling_receive_message svc name timeout previousBodyMD5 w).events) ∧
    (Operation.send ∈
        operations (SQS_longpolling_receive_message svc name timeout previousBodyMD5 w).events →
      ∃ m rest,
        (svc.ReceiveMessage queueUrl timeout (svc.GetQueueUrl name w).2).1 = .ok (m :: rest) ∧
        m.MD5OfBody ≠ previousBodyMD5 ∧
        Event.DeleteMessage queueUrl m.ReceiptHandle (.ok ()) ∈
          (SQS_longpolling_receive_message svc name timeout previousBodyMD5 w).events) := by
  rcases poll_trace_shapes svc name timeout previousBodyMD5 w queueUrl hu with
    ⟨x, _, _, he⟩ | ⟨m, rest, hr, _, he⟩ | ⟨m, rest, d, hr, hd, he⟩ | ⟨m, rest, attrs, r, hr, hd, he⟩
  · simp [he, operations]
  · simp [he, operations]
  · rw [he]
    refine ⟨by simp [operations], fun _ => ⟨m, rest, d, hr, hd, by simp⟩, ?_⟩
    simp [operations]
  · rw [he]
    exact ⟨by simp [operations], fun _ => ⟨m, rest, .ok (), hr, hd, by simp⟩,
      fun _ => ⟨m, rest, hr, hd, by simp⟩⟩

/-- Claim C14 at a fresh node polling the queue with `{"Nodes":"3"}`: receive, delete, send. -/
theorem poll_operations_witness :
    operations (SQS_longpolling_receive_message (queueClient sampleDigest) "q" 20 ""
      (pauseQueue "3")).events = [.receive, .delete, .send] ∧
    (operations (SQS_longpolling_receive_message (queueClient sampleDigest) "q" 20 ""
        (pauseQueue "3")).events = [.receive] ∨
      operations (SQS_longpolling_receive_message (queueClient sampleDigest) "q" 20 ""
        (pauseQueue "3")).events = [.receive, .delete] ∨
      operations (SQS_longpolling_receive_message (queueClient sampleDigest) "q" 20 ""
        (pauseQueue "3")).events = [.receive, .delete, .send]) :=
  ⟨by decide,
   (poll_operations (queueClient sampleDigest) "q" 20 "" (pauseQueue "3") "q" rfl).1⟩


/-! ## Further facts: a claim that re-sends, and a duplicate -/

theorem poll_resend {σ : Type} (svc : Client σ) (name : String) (timeout : Int)
    (prev : String) (w : σ) (queueUrl : String) (M : Message) (rest : List Message)
    (a : MessageAttributeValue) (s : String) (k : Int)
    (hu : (svc.GetQueueUrl name w).1 = .ok queueUrl)
    (hr : (svc.ReceiveMessage queueUrl timeout (svc.GetQueueUrl name w).2).1 = .ok (M :: rest))
    (hd : M.MD5OfBody ≠ prev)
    (hdel : (svc.DeleteMessage queueUrl M.ReceiptHandle
      (svc.ReceiveMessage queueUrl timeout (svc.GetQueueUrl name w).2).2).1 = .ok ())
    (hN : getAttr M.MessageAttributes "Nodes" = some a) (hs : a.StringValue = some s)
    (hk : Atoi s = .ok k) (h2 : 2 ≤ k) :
    SQS_longpolling_receive_message svc name timeout prev w =
      { outcome := .returned M.Body
        previousBodyMD5 := M.MD5OfBody
        events := [.GetQueueUrl name (.ok queueUrl),
          .ReceiveMessage queueUrl timeout (.ok (M :: rest)),
          .DeleteMessage queueUrl M.ReceiptHandle (.ok ()),
          .SendMessage queueUrl M.Body
            (setStringValue M.MessageAttributes "Nodes" (Itoa (k - 1)))
            (svc.SendMessage queueUrl M.Body
              (setStringValue M.MessageAttributes "Nodes" (Itoa (k - 1)))
              (svc.DeleteMessage queueUrl M.ReceiptHandle
                (svc.ReceiveMessage queueUrl timeout (svc.GetQueueUrl name w).2).2).2).1]
        world := (svc.SendMessage queueUrl M.Body
          (setStringValue M.MessageAttributes "Nodes" (Itoa (k - 1)))
          (svc.DeleteMessage queueUrl M.ReceiptHandle
            (svc.ReceiveMessage queueUrl timeout (svc.GetQueueUrl name w).2).2).2).2 } := by
  have hrg := Atoi_range s k hk
  have hw : wrapInt (k - 1) = k - 1 := wrapInt_of_range _ (by omega) (by omega)
  have h0 : ¬ (k - 1 = 0) := by omega
  simp [SQS_longpolling_receive_message, hu, hr, hd, hdel, share_message, hN, hs, hk, hw, h0]

theorem poll_duplicate {σ : Type} (svc : Client σ) (name : String) (timeout : Int)
    (prev : String) (w : σ) (queueUrl : String) (m : Message) (rest : List Message)
    (hu : (svc.GetQueueUrl name w).1 = .ok queueUrl)
    (hr : (svc.ReceiveMessage queueUrl timeout (svc.GetQueueUrl name w).2).1 = .ok (m :: rest))
    (hd : m.MD5OfBody = prev) :
    SQS_longpolling_receive_message svc name timeout prev w =
      { outcome := .returned ""
        previousBodyMD5 := prev
        events := [.GetQueueUrl name (.ok queueUrl),
          .ReceiveMessage queueUrl timeout (.ok (m :: rest)), .Sleep 1]
        world := (svc.ReceiveMessage queueUrl timeout (svc.GetQueueUrl name w).2).2 } := by
  simp [SQS_longpolling_receive_message, hu, hr, hd]

/-- Claim C15: the digest being a function `md5` of the body, let a call claim a message `M`
whose `"Nodes"` attribute parses to `k >= 2` and whose digest differs from
`previousBodyMD5`: it returns the body and sends `M` back with the counter `k - 1`. When the
next call of the same node (the `previousBodyMD5` and the world the first call left)
receives a message with the body of `M`, as the copy sent back has, it returns the empty
string, leaves `previousBodyMD5` as it is, and its trace is `GetQueueUrl`,
`ReceiveMessage` and the sleep: no delete, no send. -/
theorem poll_skips_own_repost {σ : Type} (svc : Client σ) (md5 : String → String)
    (name : String) (timeout : Int) (previousBodyMD5 : String) (w : σ) (queueUrl : String)
    (M : Message) (rest : List Message) (a : MessageAttributeValue) (s : String) (k : Int)
    (name2 : String) (timeout2 : Int) (queueUrl2 : String) (m2 : Message)
    (rest2 : List Message)
    (hu : (svc.GetQueueUrl name w).1 = .ok queueUrl)
    (hr : (svc.ReceiveMessage queueUrl timeout (svc.GetQueueUrl name w).2).1 = .ok (M :: rest))
    (hM : M.MD5OfBody = md5 M.Body)
    (hd : M.MD5OfBody ≠ previousBodyMD5)
    (hdel : (svc.DeleteMessage queueUrl M.ReceiptHandle
      (svc.ReceiveMessage queueUrl timeout (svc.GetQueueUrl name w).2).2).1 = .ok ())
    (hN : getAttr M.MessageAttributes "Nodes" = some a) (hs : a.StringValue = some s)
    (hk : Atoi s = .ok k) (h2 : 2 ≤ k)
    (hu2 : (svc.GetQueueUrl name2
      (SQS_longpolling_receive_message svc name timeout previousBodyMD5 w).world).1
        = .ok queueUrl2)
    (hr2 : (svc.ReceiveMessage queueUrl2 timeout2 (svc.GetQueueUrl name2
      (SQS_longpolling_receive_message svc name timeout previousBodyMD5 w).world).2).1
        = .ok (m2 :: rest2))
    (hbody : m2.Body = M.Body) (hm2 : m2.MD5OfBody = md5 m2.Body) :
    (SQS_longpolling_receive_message svc name timeout previousBodyMD5 w).outcome
      = .returned M.Body ∧
    sentNodes (SQS_longpolling_receive_message svc name timeout previousBodyMD5 w).events
      = [some (Itoa (k - 1))] ∧
    (SQS_longpolling_receive_message svc name2 timeout2
      (SQS_longpolling_receive_message svc name timeout previousBodyMD5 w).previousBodyMD5
      (SQS_longpolling_receive_message svc name timeout previousBodyMD5 w).world).outcome
      = .returned "" ∧
    (SQS_longpolling_receive_message svc name2 timeout2
      (SQS_longpolling_receive_message svc name timeout previousBodyMD5 w).previousBodyMD5
      (SQS_longpolling_receive_message svc name timeout previousBodyMD5 w).world).previousBodyMD5
      = (SQS_longpolling_receive_message svc name timeout previousBodyMD5 w).previousBodyMD5 ∧
    (SQS_longpolling_receive_message svc name2 timeout2
      (SQS_longpolling_receive_message svc name timeout previousBodyMD5 w).previousBodyMD5
      (SQS_longpolling_receive_message svc name timeout previousBodyMD5 w).world).events
      = [.GetQueueUrl name2 (.ok queueUrl2),
         .ReceiveMessage queueUrl2 timeout2 (.ok (m2 :: rest2)), .Sleep 1] ∧
    operations (SQS_longpolling_receive_message svc name2 timeout2
      (SQS_longpolling_receive_message svc name timeout previousBodyMD5 w).previousBodyMD5
      (SQS_longpolling_receive_message svc name timeout previousBodyMD5 w).world).events
      = [.receive] := by
  have h1 := poll_resend svc name timeout previousBodyMD5 w queueUrl M rest a s k
    hu hr hd hdel hN hs hk h2
  have hprev : (SQS_longpolling_receive_message svc name timeout previousBodyMD5 w).previousBodyMD5
      = M.MD5OfBody := by rw [h1]
  have hdig : m2.MD5OfBody
      = (SQS_longpolling_receive_message svc name timeout previousBodyMD5 w).previousBodyMD5 := by
    rw [hprev, hm2, hbody, hM]
  have hdup := poll_duplicate svc name2 timeout2
    (SQS_longpolling_receive_message svc name timeout previousBodyMD5 w).previousBodyMD5
    (SQS_longpolling_receive_message svc name timeout previousBodyMD5 w).world
    queueUrl2 m2 rest2 hu2 hr2 hdig
  refine ⟨by rw [h1], ?_, by rw [hdup], by rw [hdup], by rw [hdup], by rw [hdup]; rfl⟩
  rw [h1]
  simp [sentNodes, getAttr_setStringValue_same, hN]

/-- Claim C15 on the queue: a node claims the pause message with `{"Nodes":"3"}`, the copy
with `{"Nodes":"2"}` is queued, and the node's next call receives that copy. -/
theorem poll_skips_own_repost_witness :
    (SQS_longpolling_receive_message (queueClient sampleDigest) "q" 20 ""
      (pauseQueue "3")).outcome = .returned (pauseMessage "3").Body ∧
    sentNodes (SQS_longpolling_receive_message (queueClient sampleDigest) "q" 20 ""
      (pauseQueue "3")).events = [some (Itoa (3 - 1))] ∧
    (SQS_longpolling_receive_message (queueClient sampleDigest) "q" 20
      (SQS_longpolling_receive_message (queueClient sampleDigest) "q" 20 ""
        (pauseQueue "3")).previousBodyMD5
      (SQS_longpolling_receive_message (queueClient sampleDigest) "q" 20 ""
        (pauseQueue "3")).world).outcome = .returned "" ∧
    (SQS_longpolling_receive_message (queueClient sampleDigest) "q" 20
      (SQS_longpolling_receive_message (queueClient sampleDigest) "q" 20 ""
        (pauseQueue "3")).previousBodyMD5
      (SQS_longpolling_receive_message (queueClient sampleDigest) "q" 20 ""
        (pauseQueue "3")).world).previousBodyMD5
      = (SQS_longpolling_receive_message (queueClient sampleDigest) "q" 20 ""
        (pauseQueue "3")).previousBodyMD5 ∧
    (SQS_longpolling_receive_message (queueClient sampleDigest) "q" 20
      (SQS_longpolling_receive_message (queueClient sampleDigest) "q" 20 ""
        (pauseQueue "3")).previousBodyMD5
      (SQS_longpolling_receive_message (queueClient sampleDigest) "q" 20 ""
        (pauseQueue "3")).world).events
      = [.GetQueueUrl "q" (.ok "q"),
         .ReceiveMessage "q" 20
           (.ok [queued sampleDigest pauseBody [("Nodes", numberAttr "2")] "s"]),
         .Sleep 1] ∧
    operations (SQS_longpolling_receive_message (queueClient sampleDigest) "q" 20
      (SQS_longpolling_receive_message (queueClient sampleDigest) "q" 20 ""
        (pauseQueue "3")).previousBodyMD5
      (SQS_longpolling_receive_message (queueClient sampleDigest) "q" 20 ""
        (pauseQueue "3")).world).events = [.receive] :=
  poll_skips_own_repost (queueClient sampleDigest) sampleDigest "q" 20 "" (pauseQueue "3") "q"
    (pauseMessage "3") [] (numberAttr "3") "3" 3 "q" 20 "q"
    (queued sampleDigest pauseBody [("Nodes", numberAttr "2")] "s") []
    rfl rfl rfl (by decide) rfl (by decide) rfl (by decide) (by decide)
    (by decide) (by decide) rfl rfl

end Pumba
